import Mathlib

/-!
Verification of the arxiv-search program (src/arxiv-search.py).

The program has three components:
* a query builder (lines 36-49 of `search_arxiv`): pure string construction
  of the arXiv search query from the caller's parameters;
* a paginated fetcher (lines 51-86 of `search_arxiv`): a while loop issuing
  batched HTTP requests, accumulating parsed entries, and truncating the
  accumulated list to `max_results`;
* a citation enricher (`strip_version`, `query_semantic_scholar`):
  normalises an arXiv identifier and reshapes the Semantic Scholar JSON.

Embedding conventions:
* Python integers are `Int`; Python truthiness of an optional integer
  (`if year_start:`) is `truthyInt`; truthiness of a string is `≠ ""`,
  of a list is `≠ []`.
* The HTTP transport is an oracle `src : Nat → Response` giving, for the
  n-th GET issued by the loop, its status code and its already-parsed list
  of entries (XML parsing of well-formed responses is abstracted into the
  oracle; the loop only inspects the status code and the parsed list).
* The loop is instrumented to also return the list of requests it issued
  (query string, `start` offset, `max_results` parameter of the URL), so
  that pagination claims about offsets and request counts are statable.
* Python `list[:n]` slicing is `pySlice` (negative bounds count from the
  end, exactly as in Python).
* For `strip_version`, a Python `str` is modelled as `List Char` and
  `str.split` (single-character separator) as `pySplitChar`.
-/

/-- One parsed arXiv entry: title, author names in document order, summary,
and the alternate-relation link (lines 67-78 of the source). -/
structure Article where
  title : String
  authors : List String
  summary : String
  link : String
deriving DecidableEq, Repr, Inhabited

/-- One HTTP response of the search endpoint, as the loop observes it:
the status code and the entries parsed from the XML body. -/
structure Response where
  status : Nat
  entries : List Article
deriving DecidableEq, Repr, Inhabited

/-- One GET request issued by the pagination loop: the search query and the
`start` and `max_results` URL parameters (line 55 of the source). -/
structure Request where
  query : String
  start : Int
  want : Int
deriving DecidableEq, Repr, Inhabited

/-- The `parameters` dictionary of `search_arxiv`, with the defaults the
source supplies via `parameters.get` (lines 29-33). -/
structure SearchParams where
  subject : String := ""
  max_results : Int := 50
  categories : List String := []
  year_start : Option Int := none
  year_end : Option Int := none
deriving DecidableEq, Repr, Inhabited

/-- Python truthiness of an optional integer: `None` and `0` are falsy,
every other integer is truthy. -/
def truthyInt : Option Int → Bool
  | none => false
  | some n => n != 0

/-- Python `sep.join(xs)` for a list of strings. -/
def pyJoin (sep : String) : List String → String
  | [] => ""
  | [x] => x
  | x :: xs => x ++ sep ++ pyJoin sep xs

/-- Python `xs[:n]`: for `n ≥ 0` take the first `n` elements, for `n < 0`
drop the last `-n` (clamped at the empty list), as Python slicing does. -/
def pySlice (xs : List α) (n : Int) : List α :=
  if 0 ≤ n then xs.take n.toNat else xs.take ((xs.length : Int) + n).toNat

/-- Category clause of the query (lines 36-40 of the source): the
`" OR "`-join of `cat:<c>` terms if `categories` is truthy, else `""`;
then, if that string is truthy, parenthesised and suffixed with `" AND "`. -/
def category_filter (categories : List String) : String :=
  let cf := if categories.isEmpty then ""
            else pyJoin " OR " (categories.map (fun cat => "cat:" ++ cat))
  if cf ≠ "" then "(" ++ cf ++ ") AND " else cf

/-- Date clause of the query (lines 43-46 of the source): if `year_start`
is truthy, `submittedDate:[<year_start>0000 TO ` followed by
`<year_end>1231]` if `year_end` is truthy, else `*]`; otherwise `""`. -/
def date_filter (year_start year_end : Option Int) : String :=
  if truthyInt year_start then
    "submittedDate:[" ++ toString (year_start.getD 0) ++ "0000 TO " ++
      (if truthyInt year_end then toString (year_end.getD 0) ++ "1231]" else "*]")
  else ""

/-- The full search query (line 49 of the source):
`f"{category_filter}{date_filter} AND all:{subject}"`. -/
def build_query (p : SearchParams) : String :=
  category_filter p.categories ++ date_filter p.year_start p.year_end
    ++ " AND all:" ++ p.subject

/-- Python `s.split(sep)` for a single-character separator `sep`, on the
`List Char` model of strings. The result is always non-empty. -/
def pySplitChar (sep : Char) : List Char → List (List Char)
  | [] => [[]]
  | c :: cs =>
    match pySplitChar sep cs with
    | [] => [[]]
    | h :: t => if c = sep then [] :: h :: t else (c :: h) :: t

/-- The source's `strip_version` (lines 89-99): `arxiv_id.split("v")[0]`,
on the `List Char` model of Python strings. -/
def strip_version (arxiv_id : List Char) : List Char :=
  (pySplitChar 'v' arxiv_id).headD []

/-- The pagination loop of `search_arxiv` (lines 54-84 of the source), with
state `collected` (`all_results`), `start` (the request offset) and `k` (the
index of the next GET in the run, used to query the transport oracle).
While `len(all_results) < max_results`: issue the request with offset
`start` and `max_results=min(batch_size, max_results - len(all_results))`;
break on a status other than 200; break on an empty parsed batch; otherwise
extend `all_results` with the batch and advance `start` by `batch_size`.
Returns the accumulated entries together with the list of requests issued. -/
def searchLoop (src : Nat → Response) (query : String)
    (max_results batch_size : Int) (collected : List Article)
    (start : Int) (k : Nat) : List Article × List Request :=
  if h : (collected.length : Int) < max_results then
    let want : Int := min batch_size (max_results - (collected.length : Int))
    if (src k).status ≠ 200 then
      (collected, [⟨query, start, want⟩])
    else if hbatch : (src k).entries = [] then
      (collected, [⟨query, start, want⟩])
    else
      let rest := searchLoop src query max_results batch_size
        (collected ++ (src k).entries) (start + batch_size) (k + 1)
      (rest.1, ⟨query, start, want⟩ :: rest.2)
  else
    (collected, [])
termination_by (max_results - (collected.length : Int)).toNat
decreasing_by
  have hlen : 0 < (src k).entries.length := List.length_pos.mpr hbatch
  simp only [List.length_append]
  omega

/-- Fuel-indexed version of `searchLoop`: identical loop body, but the
recursion consumes one unit of fuel per iteration and answers `none` when
the fuel runs out while the loop guard still holds. Used to state the
termination claim: a fuel of `(max_results - len(collected)).toNat` always
suffices. -/
def searchLoopFuel (src : Nat → Response) (query : String)
    (max_results batch_size : Int) :
    Nat → List Article → Int → Nat → Option (List Article × List Request)
  | 0, collected, _, _ =>
    if (collected.length : Int) < max_results then none else some (collected, [])
  | fuel + 1, collected, start, k =>
    if (collected.length : Int) < max_results then
      let want : Int := min batch_size (max_results - (collected.length : Int))
      if (src k).status ≠ 200 then
        some (collected, [⟨query, start, want⟩])
      else if (src k).entries = [] then
        some (collected, [⟨query, start, want⟩])
      else
        (searchLoopFuel src query max_results batch_size fuel
            (collected ++ (src k).entries) (start + batch_size) (k + 1)).map
          (fun rest => (rest.1, ⟨query, start, want⟩ :: rest.2))
    else
      some (collected, [])

/-- The whole of `search_arxiv` up to the final truncation: build the query
from the parameters and run the pagination loop from the empty accumulator
and offset 0. -/
def search_arxiv_run (src : Nat → Response) (p : SearchParams)
    (batch_size : Int := 2000) : List Article × List Request :=
  searchLoop src (build_query p) p.max_results batch_size [] 0 0

/-- The source's `search_arxiv` (lines 10-86): the accumulated entries of
the pagination loop, truncated by the final `all_results[:max_results]`
slice (line 86). -/
def search_arxiv (src : Nat → Response) (p : SearchParams)
    (batch_size : Int := 2000) : List Article :=
  pySlice (search_arxiv_run src p batch_size).1 p.max_results

/-- One author object of the Semantic Scholar JSON: its `name` field may be
absent. -/
structure AuthorJson where
  name : Option String
deriving DecidableEq, Repr

/-- One paper object of the Semantic Scholar JSON (an element of the
`references` or `citations` arrays): `title` and `authors` may be absent. -/
structure PaperJson where
  title : Option String
  authors : Option (List AuthorJson)
deriving DecidableEq, Repr

/-- The fields of the Semantic Scholar JSON body that
`query_semantic_scholar` reads; each may be absent. -/
structure SSData where
  citations : Option (List PaperJson)
  influentialCitationCount : Option Int
  references : Option (List PaperJson)
deriving DecidableEq, Repr

/-- One HTTP response of the citation endpoint: status code and JSON body. -/
structure SSResponse where
  status : Nat
  data : SSData
deriving DecidableEq, Repr

/-- One reshaped reference or citing paper in the returned record. -/
structure RefRecord where
  title : String
  authors : List String
deriving DecidableEq, Repr

/-- The dictionary returned by `query_semantic_scholar`: each field is
`none` exactly when the source puts Python `None` there. -/
structure CitationRecord where
  citation_count : Option Int
  influential_citation_count : Option Int
  references : Option (List RefRecord)
  citing_papers : Option (List RefRecord)
deriving DecidableEq, Repr

/-- Reshaping of one paper object (lines 122-127 and 132-137 of the
source): missing title becomes `"Unknown Title"`, each missing author name
becomes `"Unknown"`, missing author array becomes `[]`. -/
def parsePaper (p : PaperJson) : RefRecord :=
  { title := p.title.getD "Unknown Title"
    authors := (p.authors.getD []).map (fun a => a.name.getD "Unknown") }

/-- The source's `query_semantic_scholar` (lines 102-149), with the HTTP
response passed in explicitly: on status 200 it reshapes the JSON, on any
other status it returns the all-`None` record. -/
def query_semantic_scholar (resp : SSResponse) : CitationRecord :=
  if resp.status = 200 then
    { citation_count := some ((resp.data.citations.getD []).length : Int)
      influential_citation_count := some (resp.data.influentialCitationCount.getD 0)
      references := some ((resp.data.references.getD []).map parsePaper)
      citing_papers := some ((resp.data.citations.getD []).map parsePaper) }
  else
    { citation_count := none
      influential_citation_count := none
      references := none
      citing_papers := none }

/-- The parameter dictionary of the script's `__main__` block
(lines 154-160 of the source). -/
def exMainParams : SearchParams :=
  { subject := "Bayesian optimization", max_results := 2,
    categories := ["stat.ML", "stat.TH"],
    year_start := some 2020, year_end := some 2021 }

/-- A concrete article used in witness instantiations. -/
def exArticle : Article := ⟨"T", ["A"], "S", "L"⟩

/-- A transport oracle that answers every request with status 200 and a
one-entry batch. -/
def exSrcOk : Nat → Response := fun _ => ⟨200, [exArticle]⟩

/-- A transport oracle that answers every request with status 500. -/
def exSrcFail : Nat → Response := fun _ => ⟨500, [exArticle]⟩

/-- A transport oracle that answers every request with status 200 and a
2000-entry batch (the over-delivering source of the truncation scenario). -/
def exSrcBig : Nat → Response := fun _ => ⟨200, List.replicate 2000 exArticle⟩

/-- Parameters requesting at most 3 results. -/
def exParams3 : SearchParams := { max_results := 3 }

/-- Parameters requesting at most 2 results. -/
def exParams2 : SearchParams := { max_results := 2 }

/-- Parameters requesting at most 0 results. -/
def exParams0 : SearchParams := { max_results := 0 }

/-- A failing citation-endpoint response. -/
def exRespFail : SSResponse := ⟨404, ⟨none, none, none⟩⟩

/-- A successful citation-endpoint response with two citations and one
reference, exercising the missing-field defaults. -/
def exRespOk : SSResponse :=
  ⟨200, ⟨some [⟨some "X", none⟩, ⟨none, some [⟨some "A"⟩]⟩], some 7,
    some [⟨some "R", none⟩]⟩⟩

/-- Whenever the remaining demand `max_results - len(collected)` fits into
the available fuel, the fuel-indexed loop succeeds and agrees with the
recursive loop: each continuing iteration appends a non-empty batch, so at
most that many iterations can occur before the guard fails or a break
fires. -/
theorem searchLoopFuel_complete (src : Nat → Response) (q : String) (mR bS : Int) :
    ∀ (fuel : Nat) (collected : List Article) (start : Int) (k : Nat),
      (mR - (collected.length : Int)).toNat ≤ fuel →
      searchLoopFuel src q mR bS fuel collected start k
        = some (searchLoop src q mR bS collected start k) := by
  intro fuel
  induction fuel with
  | zero =>
    intro collected start k hfuel
    have hge : ¬ ((collected.length : Int) < mR) := by omega
    rw [searchLoop, searchLoopFuel]
    simp [hge]
  | succ fuel ih =>
    intro collected start k hfuel
    rw [searchLoop, searchLoopFuel]
    by_cases hlt : (collected.length : Int) < mR
    · rw [dif_pos hlt, if_pos hlt]
      by_cases hst : (src k).status ≠ 200
      · simp [hst]
      · simp only [hst, if_neg, if_false]
        by_cases hbatch : (src k).entries = []
        · simp [hbatch, hst]
        · have hpos : 0 < (src k).entries.length := List.length_pos.mpr hbatch
          have harith : (mR - ((collected ++ (src k).entries).length : Int)).toNat ≤ fuel := by
            simp only [List.length_append]
            omega
          simp only [hbatch, hst, if_false, dif_neg, ite_false]
          rw [ih _ _ _ harith]
          simp
    · rw [dif_neg hlt, if_neg hlt]

/-- In any successful run of the fuel-indexed loop started at offset
`start`, the i-th issued request carries offset `start + i * bS`: the loop
advances the offset by exactly `batch_size` per appended batch. -/
theorem searchLoopFuel_offsets (src : Nat → Response) (q : String) (mR bS : Int) :
    ∀ (fuel : Nat) (collected : List Article) (start : Int) (k : Nat)
      (res : List Article) (tr : List Request),
      searchLoopFuel src q mR bS fuel collected start k = some (res, tr) →
      ∀ i, i < tr.length → (tr.getD i default).start = start + (i : Int) * bS := by
  intro fuel
  induction fuel with
  | zero =>
    intro collected start k res tr h i hi
    rw [searchLoopFuel] at h
    by_cases hlt : (collected.length : Int) < mR
    · simp [hlt] at h
    · simp [hlt] at h
      rw [h.2] at hi
      simp at hi
  | succ fuel ih =>
    intro collected start k res tr h i hi
    rw [searchLoopFuel] at h
    by_cases hlt : (collected.length : Int) < mR
    · rw [if_pos hlt] at h
      by_cases hst : (src k).status ≠ 200
      · rw [if_pos hst] at h
        have htr : tr = [⟨q, start, min bS (mR - (collected.length : Int))⟩] :=
          ((Prod.mk.injEq _ _ _ _).mp (Option.some.inj h)).2.symm
        subst htr
        have hi0 : i = 0 := by simpa using hi
        subst hi0
        simp
      · rw [if_neg hst] at h
        by_cases hbatch : (src k).entries = []
        · rw [if_pos hbatch] at h
          have htr : tr = [⟨q, start, min bS (mR - (collected.length : Int))⟩] :=
            ((Prod.mk.injEq _ _ _ _).mp (Option.some.inj h)).2.symm
          subst htr
          have hi0 : i = 0 := by simpa using hi
          subst hi0
          simp
        · rw [if_neg hbatch] at h
          obtain ⟨⟨res', tr'⟩, hrec, heq⟩ := Option.map_eq_some'.mp h
          have htr : tr = ⟨q, start, min bS (mR - (collected.length : Int))⟩ :: tr' :=
            ((Prod.mk.injEq _ _ _ _).mp heq).2.symm
          subst htr
          cases i with
          | zero => simp
          | succ i =>
            have hi' : i < tr'.length := by simpa using hi
            have := ih _ _ _ res' tr' hrec i hi'
            simp only [List.getD_cons_succ]
            rw [this]
            push_cast
            ring
    · rw [if_neg hlt] at h
      have htr : tr = [] := ((Prod.mk.injEq _ _ _ _).mp (Option.some.inj h)).2.symm
      subst htr
      simp at hi

/-- Concrete evaluation principle for `searchLoop`: a run of the
fuel-indexed loop with exactly the remaining-demand fuel computes the value
of the recursive loop. -/
theorem searchLoop_eval {src : Nat → Response} {q : String} {mR bS : Int}
    {collected : List Article} {start : Int} {k : Nat}
    {v : List Article × List Request}
    (h : searchLoopFuel src q mR bS (mR - (collected.length : Int)).toNat
        collected start k = some v) :
    searchLoop src q mR bS collected start k = v := by
  have hc := searchLoopFuel_complete src q mR bS
    (mR - (collected.length : Int)).toNat collected start k (le_refl _)
  rw [h] at hc
  exact (Option.some.inj hc).symm

/-- Claim C1: for every source, parameters with non-negative
`max_results`, and batch size, `search_arxiv` returns at most
`max_results` articles and is exactly the truncation (`take`) of the
loop's accumulated entries to that bound; in particular with
`max_results = 2` against a source whose first batch has 2000 entries and
status 200, it returns exactly the first 2 articles of that batch. -/
theorem fetch_truncates :
    (∀ (src : Nat → Response) (p : SearchParams) (bS : Int),
        0 ≤ p.max_results →
        ((search_arxiv src p bS).length : Int) ≤ p.max_results ∧
        search_arxiv src p bS
          = (search_arxiv_run src p bS).1.take p.max_results.toNat) ∧
    (∀ (src : Nat → Response) (p : SearchParams),
        p.max_results = 2 → (src 0).status = 200 →
        (src 0).entries.length = 2000 →
        search_arxiv src p 2000 = (src 0).entries.take 2) := by
  constructor
  · intro src p bS hmr
    have hsl : search_arxiv src p bS
        = (search_arxiv_run src p bS).1.take p.max_results.toNat := by
      rw [search_arxiv, pySlice, if_pos hmr]
    refine ⟨?_, hsl⟩
    rw [hsl]
    have := List.length_take p.max_results.toNat (search_arxiv_run src p bS).1
    omega
  · intro src p h2 hst hlen
    rw [search_arxiv, search_arxiv_run, h2]
    have hne : (src 0).entries ≠ [] := by
      intro hc
      rw [hc] at hlen
      simp at hlen
    rw [searchLoop]
    rw [dif_pos (by norm_num : ((([] : List Article).length : Int) < 2))]
    rw [if_neg (by simp [hst])]
    rw [dif_neg hne]
    rw [searchLoop]
    rw [dif_neg (by simp [hlen] : ¬ ((([] ++ (src 0).entries : List Article).length : Int) < 2))]
    simp [pySlice]

/-- Witness for C1 at concrete inputs: a 3-result fetch against a
one-entry-per-batch source, and a 2-result fetch against a
2000-entries-per-batch source. -/
theorem fetch_truncates_witness :
    (0 : Int) ≤ exParams3.max_results ∧
    ((search_arxiv exSrcOk exParams3 5).length : Int) ≤ exParams3.max_results ∧
    exParams2.max_results = 2 ∧ (exSrcBig 0).status = 200 ∧
    (exSrcBig 0).entries.length = 2000 ∧
    search_arxiv exSrcBig exParams2 2000 = (exSrcBig 0).entries.take 2 :=
  ⟨by decide, (fetch_truncates.1 exSrcOk exParams3 5 (by decide)).1, rfl, rfl,
    by simp only [exSrcBig, List.length_replicate],
    fetch_truncates.2 exSrcBig exParams2 rfl rfl
      (by simp only [exSrcBig, List.length_replicate])⟩

/-- Claim C2: the fetch loop terminates for every transport oracle:
a fuel of `(max_results - len(collected)).toNat` iterations always
suffices for the fuel-indexed loop to finish and agree with the loop,
because each continuing iteration appends at least one entry; moreover a
non-success status or an empty parsed batch exits the loop immediately,
returning the entries collected so far. -/
theorem fetch_loop_terminates :
    (∀ (src : Nat → Response) (q : String) (mR bS : Int) (collected : List Article)
        (start : Int) (k fuel : Nat),
        (mR - (collected.length : Int)).toNat ≤ fuel →
        searchLoopFuel src q mR bS fuel collected start k
          = some (searchLoop src q mR bS collected start k)) ∧
    (∀ (src : Nat → Response) (q : String) (mR bS : Int) (collected : List Article)
        (start : Int) (k : Nat),
        (collected.length : Int) < mR →
        ((src k).status ≠ 200 ∨ (src k).entries = []) →
        searchLoop src q mR bS collected start k
          = (collected, [⟨q, start, min bS (mR - (collected.length : Int))⟩])) := by
  constructor
  · intro src q mR bS collected start k fuel h
    exact searchLoopFuel_complete src q mR bS fuel collected start k h
  · intro src q mR bS collected start k hlt hexit
    rcases hexit with hst | hbatch
    · rw [searchLoop, dif_pos hlt, if_pos hst]
    · by_cases hst : (src k).status ≠ 200
      · rw [searchLoop, dif_pos hlt, if_pos hst]
      · rw [searchLoop, dif_pos hlt, if_neg hst, dif_pos hbatch]

/-- Witness for C2 at concrete inputs: fuel 3 suffices for a 3-result
fetch, and a failing request exits immediately. -/
theorem fetch_loop_terminates_witness :
    ((3 : Int) - ((([] : List Article).length : Int))).toNat ≤ 3 ∧
    searchLoopFuel exSrcOk "" 3 5 3 [] 0 0
      = some (searchLoop exSrcOk "" 3 5 [] 0 0) ∧
    (([exArticle] : List Article).length : Int) < 3 ∧
    (exSrcFail 1).status ≠ 200 ∧
    searchLoop exSrcFail "" 3 5 [exArticle] 10 1
      = ([exArticle], [⟨"", 10, min 5 (3 - (([exArticle] : List Article).length : Int))⟩]) :=
  ⟨by decide, fetch_loop_terminates.1 exSrcOk "" 3 5 [] 0 0 3 (by decide),
    by decide, by decide,
    fetch_loop_terminates.2 exSrcFail "" 3 5 [exArticle] 10 1 (by decide)
      (Or.inl (by decide))⟩

/-- Claim C3: in every run of the fetch loop starting from the initial
state, the i-th issued request carries offset `i * batch_size`: the offset
starts at 0 and advances by exactly `batch_size` per appended batch,
regardless of how many entries each batch contained. -/
theorem fetch_offset_pagination :
    ∀ (src : Nat → Response) (p : SearchParams) (bS : Int) (i : Nat),
      i < (search_arxiv_run src p bS).2.length →
      ((search_arxiv_run src p bS).2.getD i default).start = (i : Int) * bS := by
  intro src p bS i hi
  have hc := searchLoopFuel_complete src (build_query p) p.max_results bS
    (p.max_results - ((([] : List Article).length : Int))).toNat [] 0 0 (le_refl _)
  have hoff := searchLoopFuel_offsets src (build_query p) p.max_results bS
    (p.max_results - ((([] : List Article).length : Int))).toNat [] 0 0
    (search_arxiv_run src p bS).1 (search_arxiv_run src p bS).2 (by rw [hc]; exact rfl) i hi
  simpa using hoff

/-- Witness for C3 at a concrete input: the second request of a 3-result
fetch with batch size 5 carries offset 5. -/
theorem fetch_offset_pagination_witness :
    1 < (search_arxiv_run exSrcOk exParams3 5).2.length ∧
    ((search_arxiv_run exSrcOk exParams3 5).2.getD 1 default).start
      = ((1 : Nat) : Int) * 5 := by
  have hrun : search_arxiv_run exSrcOk exParams3 5
      = ([exArticle, exArticle, exArticle],
         [⟨" AND all:", 0, 3⟩, ⟨" AND all:", 5, 2⟩, ⟨" AND all:", 10, 1⟩]) := by
    rw [search_arxiv_run]
    exact searchLoop_eval (by decide)
  refine ⟨by rw [hrun]; decide, ?_⟩
  exact fetch_offset_pagination exSrcOk exParams3 5 1 (by rw [hrun]; decide)

/-- Claim C4: when a request of the fetch loop comes back with a
non-success status, the loop stops there and returns exactly the entries
collected before that request, as an ordinary value (the final truncation
then leaves that partial result unchanged). -/
theorem fetch_partial_on_failure :
    ∀ (src : Nat → Response) (q : String) (mR bS : Int) (collected : List Article)
      (start : Int) (k : Nat),
      (collected.length : Int) < mR → (src k).status ≠ 200 →
      searchLoop src q mR bS collected start k
        = (collected, [⟨q, start, min bS (mR - (collected.length : Int))⟩]) ∧
      pySlice collected mR = collected := by
  intro src q mR bS collected start k hlt hst
  refine ⟨by rw [searchLoop, dif_pos hlt, if_pos hst], ?_⟩
  rw [pySlice, if_pos (by omega : (0:Int) ≤ mR)]
  apply List.take_of_length_le
  omega

/-- Witness for C4 at a concrete input: a status-500 response with one
article already collected. -/
theorem fetch_partial_on_failure_witness :
    (([exArticle] : List Article).length : Int) < 4 ∧ (exSrcFail 2).status ≠ 200 ∧
    searchLoop exSrcFail "q" 4 7 [exArticle] 14 2
      = ([exArticle], [⟨"q", 14, min 7 (4 - (([exArticle] : List Article).length : Int))⟩]) ∧
    pySlice [exArticle] (4 : Int) = [exArticle] :=
  ⟨by decide, by decide,
    (fetch_partial_on_failure exSrcFail "q" 4 7 [exArticle] 14 2 (by decide) (by decide)).1,
    (fetch_partial_on_failure exSrcFail "q" 4 7 [exArticle] 14 2 (by decide) (by decide)).2⟩

/-- Claim C9: with non-positive `max_results` the loop guard fails at
once: `search_arxiv` returns the empty list and the loop issues no
requests at all. -/
theorem fetch_nonpositive_max :
    ∀ (src : Nat → Response) (p : SearchParams) (bS : Int),
      p.max_results ≤ 0 →
      search_arxiv src p bS = [] ∧ (search_arxiv_run src p bS).2 = [] := by
  intro src p bS hmr
  have hrun : search_arxiv_run src p bS = ([], []) := by
    rw [search_arxiv_run, searchLoop, dif_neg (by simp; omega)]
  constructor
  · rw [search_arxiv, hrun]
    simp [pySlice]
  · rw [hrun]

/-- Witness for C9 at a concrete input: `max_results = 0`. -/
theorem fetch_nonpositive_max_witness :
    exParams0.max_results ≤ 0 ∧ search_arxiv exSrcOk exParams0 5 = [] ∧
    (search_arxiv_run exSrcOk exParams0 5).2 = [] :=
  ⟨by decide, fetch_nonpositive_max exSrcOk exParams0 5 (by decide)⟩

/-- In a join of a non-empty list the first element's length is a lower
bound on the length of the joined string. -/
theorem pyJoin_cons_length (sep x : String) (xs : List String) :
    x.length ≤ (pyJoin sep (x :: xs)).length := by
  cases xs with
  | nil => simp [pyJoin]
  | cons y ys =>
    simp [pyJoin, String.length_append]
    omega

/-- For a non-empty category list the category clause is the parenthesised
`" OR "`-join of the `cat:<c>` terms followed by `" AND "`. -/
theorem category_filter_eq_of_ne_nil (cs : List String) (h : cs ≠ []) :
    category_filter cs
      = "(" ++ pyJoin " OR " (cs.map (fun c => "cat:" ++ c)) ++ ") AND " := by
  obtain ⟨c, cs', rfl⟩ := List.exists_cons_of_ne_nil h
  have hlen : ("cat:" ++ c).length
      ≤ (pyJoin " OR " ((c :: cs').map (fun cat => "cat:" ++ cat))).length := by
    simpa using pyJoin_cons_length " OR " ("cat:" ++ c) (cs'.map (fun cat => "cat:" ++ cat))
  have h4 : ("cat:" ++ c).length = 4 + c.length := by
    have : ("cat:" : String).length = 4 := rfl
    simp [String.length_append, this]
  have hne : pyJoin " OR " (("cat:" ++ c) :: cs'.map (fun cat => "cat:" ++ cat)) ≠ "" := by
    intro hcontra
    rw [List.map_cons] at hlen
    rw [hcontra] at hlen
    have : ("" : String).length = 0 := rfl
    omega
  simp [category_filter, hne]

/-- Claim C5: the built query is the concatenation of the category clause,
the date clause and `" AND all:<subject>"`; a non-empty category list
yields the parenthesised disjunction followed by `" AND "`, an empty one
yields no category clause at all; with both the category and date clauses
absent the leading `" AND "` before the subject clause is still emitted;
and the `__main__` parameters produce a query containing
`"(cat:stat.ML OR cat:stat.TH) AND"`. -/
theorem build_query_shape :
    (∀ p : SearchParams,
        build_query p = category_filter p.categories
          ++ date_filter p.year_start p.year_end ++ " AND all:" ++ p.subject) ∧
    (∀ cs : List String, cs ≠ [] →
        category_filter cs
          = "(" ++ pyJoin " OR " (cs.map (fun c => "cat:" ++ c)) ++ ") AND ") ∧
    (∀ cs : List String, cs = [] → category_filter cs = "") ∧
    (∀ p : SearchParams, p.categories = [] → truthyInt p.year_start = false →
        build_query p = " AND all:" ++ p.subject) ∧
    (∃ pre post : String,
        build_query exMainParams
          = pre ++ "(cat:stat.ML OR cat:stat.TH) AND" ++ post) := by
  refine ⟨fun p => rfl, category_filter_eq_of_ne_nil, ?_, ?_, ?_⟩
  · intro cs h
    subst h
    rfl
  · intro p hc hy
    rw [build_query, hc, date_filter, hy]
    simp [category_filter]
  · exact ⟨"", " submittedDate:[20200000 TO 20211231] AND all:Bayesian optimization",
      by decide⟩

/-- Witness for C5 at concrete inputs: the category clause of
`["stat.ML", "stat.TH"]` and the both-clauses-absent query shape. -/
theorem build_query_shape_witness :
    (["stat.ML", "stat.TH"] : List String) ≠ [] ∧
    category_filter ["stat.ML", "stat.TH"]
      = "(" ++ pyJoin " OR " ((["stat.ML", "stat.TH"] : List String).map
          (fun c => "cat:" ++ c)) ++ ") AND " ∧
    exParams3.categories = [] ∧ truthyInt exParams3.year_start = false ∧
    build_query exParams3 = " AND all:" ++ exParams3.subject :=
  ⟨by decide, build_query_shape.2.1 ["stat.ML", "stat.TH"] (by decide),
    rfl, rfl, build_query_shape.2.2.2.1 exParams3 rfl rfl⟩

/-- Counterexample to Claim C6 as stated: `year_start` present but equal
to `0` is falsy in the source's `if year_start:` test, so no date clause
is emitted at all instead of `submittedDate:[00000 TO *]`. -/
theorem date_filter_zero_year_counterexample :
    date_filter (some 0) none = "" ∧
    date_filter (some 0) none ≠ "submittedDate:[00000 TO *]" := by
  constructor
  · rfl
  · decide

/-- Claim C6 (amended): for a present and non-zero `year_start` the date
clause is `submittedDate:[<year_start>0000 TO <year_end>1231]` when
`year_end` is present and non-zero, and `submittedDate:[<year_start>0000
TO *]` otherwise (`year_end` absent or zero); for an absent or zero
`year_start` the date clause is omitted entirely, even when `year_end` is
present. -/
theorem date_filter_amended :
    (∀ y : Int, y ≠ 0 → ∀ z : Int, z ≠ 0 →
        date_filter (some y) (some z)
          = "submittedDate:[" ++ toString y ++ "0000 TO " ++ toString z ++ "1231]") ∧
    (∀ y : Int, y ≠ 0 →
        date_filter (some y) none
          = "submittedDate:[" ++ toString y ++ "0000 TO *]") ∧
    (∀ y : Int, y ≠ 0 →
        date_filter (some y) (some 0)
          = "submittedDate:[" ++ toString y ++ "0000 TO *]") ∧
    (∀ ye : Option Int, date_filter none ye = "" ∧ date_filter (some 0) ye = "") := by
  have hstar : ("0000 TO " ++ "*]" : String) = "0000 TO *]" := rfl
  refine ⟨?_, ?_, ?_, ?_⟩
  · intro y hy z hz
    simp [date_filter, truthyInt, hy, hz, String.append_assoc]
  · intro y hy
    simp [date_filter, truthyInt, hy, String.append_assoc, hstar]
  · intro y hy
    simp [date_filter, truthyInt, hy, String.append_assoc, hstar]
  · intro ye
    constructor <;> simp [date_filter, truthyInt]

/-- Witness for the amended C6 at concrete inputs: the 2020-2021 range and
the open-ended 2020 range. -/
theorem date_filter_amended_witness :
    (2020 : Int) ≠ 0 ∧ (2021 : Int) ≠ 0 ∧
    date_filter (some 2020) (some 2021)
      = "submittedDate:[" ++ toString (2020 : Int) ++ "0000 TO "
          ++ toString (2021 : Int) ++ "1231]" ∧
    date_filter (some 2020) none
      = "submittedDate:[" ++ toString (2020 : Int) ++ "0000 TO *]" :=
  ⟨by decide, by decide,
    date_filter_amended.1 2020 (by decide) 2021 (by decide),
    date_filter_amended.2.1 2020 (by decide)⟩

/-- Python's split never returns an empty list of pieces. -/
theorem pySplitChar_ne_nil (sep : Char) (s : List Char) : pySplitChar sep s ≠ [] := by
  cases s with
  | nil => simp [pySplitChar]
  | cons c cs =>
    simp only [pySplitChar]
    cases hsplit : pySplitChar sep cs with
    | nil => simp
    | cons hd tl =>
      by_cases hc : c = sep <;> simp [hc]

/-- The first piece of Python's split is the longest separator-free
leading segment of the string. -/
theorem pySplitChar_head (sep : Char) :
    ∀ s : List Char, (pySplitChar sep s).headD [] = s.takeWhile (fun c => c ≠ sep) := by
  intro s
  induction s with
  | nil => rfl
  | cons c cs ih =>
    simp only [pySplitChar]
    cases hsplit : pySplitChar sep cs with
    | nil => exact absurd hsplit (pySplitChar_ne_nil sep cs)
    | cons hd tl =>
      rw [hsplit] at ih
      by_cases hc : c = sep
      · simp [hc, List.takeWhile_cons]
      · simp only [List.takeWhile_cons]
        simp [hc]
        simpa using ih

/-- Claim C8: `strip_version` returns the part of the identifier strictly
before the first occurrence of the character `v`, and the identifier
unchanged when it contains no `v`; in particular it maps `2405.01304v1`
to `2405.01304` and leaves `2405.01304` unchanged. -/
theorem strip_version_correct :
    (∀ s : List Char, strip_version s = s.takeWhile (fun c => c ≠ 'v')) ∧
    (∀ s : List Char, 'v' ∉ s → strip_version s = s) ∧
    strip_version ("2405.01304v1".data) = "2405.01304".data ∧
    strip_version ("2405.01304".data) = "2405.01304".data := by
  have hmain : ∀ s : List Char, strip_version s = s.takeWhile (fun c => c ≠ 'v') :=
    fun s => pySplitChar_head 'v' s
  refine ⟨hmain, ?_, by decide, by decide⟩
  intro s hv
  rw [hmain s]
  apply List.takeWhile_eq_self_iff.mpr
  intro a ha
  simp
  intro hav
  exact hv (hav ▸ ha)

/-- Witness for C8 at a concrete input: an identifier without a version
marker is returned unchanged. -/
theorem strip_version_correct_witness :
    ('v' ∉ ("2405.01304".data : List Char)) ∧
    strip_version ("2405.01304".data) = "2405.01304".data :=
  ⟨by decide, strip_version_correct.2.1 ("2405.01304".data) (by decide)⟩

/-- Claim C7: on any non-OK status the citation query returns the record
with all four fields set to `none`, never a partial mix, and no error is
raised (the function is total and returns an ordinary record). -/
theorem enrich_failure_all_absent :
    ∀ resp : SSResponse, resp.status ≠ 200 →
      query_semantic_scholar resp
        = { citation_count := none, influential_citation_count := none,
            references := none, citing_papers := none } := by
  intro resp h
  rw [query_semantic_scholar, if_neg h]

/-- Witness for C7 at a concrete input: a status-404 response. -/
theorem enrich_failure_all_absent_witness :
    exRespFail.status ≠ 200 ∧
    query_semantic_scholar exRespFail
      = { citation_count := none, influential_citation_count := none,
          references := none, citing_papers := none } :=
  ⟨by decide, enrich_failure_all_absent exRespFail (by decide)⟩

/-- Claim C10: on any OK response the returned `citation_count` equals the
length of the returned `citing_papers` list, since both are computed from
the same `citations` array (defaulting to `0` and `[]` when absent). -/
theorem enrich_count_eq_citing_length :
    ∀ resp : SSResponse, resp.status = 200 →
      ∃ l : List RefRecord,
        (query_semantic_scholar resp).citing_papers = some l ∧
        (query_semantic_scholar resp).citation_count = some (l.length : Int) := by
  intro resp h
  refine ⟨(resp.data.citations.getD []).map parsePaper, ?_, ?_⟩
  · rw [query_semantic_scholar, if_pos h]
  · rw [query_semantic_scholar, if_pos h]
    simp

/-- Witness for C10 at a concrete input: an OK response with two
citations. -/
theorem enrich_count_eq_citing_length_witness :
    exRespOk.status = 200 ∧
    ∃ l : List RefRecord,
      (query_semantic_scholar exRespOk).citing_papers = some l ∧
      (query_semantic_scholar exRespOk).citation_count = some (l.length : Int) :=
  ⟨rfl, enrich_count_eq_citing_length exRespOk rfl⟩
